import Mathlib

set_option maxRecDepth 100000

/-!
Verification development for the DiagramCraft repository
(src/src/components/TikZExample.jsx).

The component is a React editor: a template store persisted to a
localStorage slot under the key "tikzTemplates", a two-rule syntax
checker `validateTikZSyntax`, a keyword-driven preview synthesizer
(the body of `renderTikZ`), and the editor state
(tikzCode / templates / renderedSVG / error) with its handlers.

The embedding below translates that source directly:
  - JS strings are Lean `String`s; `String.prototype.includes` is
    `jsIncludes` (unanchored, case-sensitive substring test);
  - the JS object holding templates is an association list
    `List (String × String)` with JS object-spread insertion
    (`jsInsert`, which overwrites in place or appends) and property
    lookup (`jsLookup`);
  - `localStorage` is a single `Option Slot` value.  `JSON.stringify`
    and `JSON.parse` are host (browser) functions, not code of this
    repository, so they are modelled by their contract: `Slot.ofJson m`
    is the string `JSON.stringify m` (non-empty, parses back to `m`),
    `Slot.notJson s` stands for a non-empty stored string that
    `JSON.parse` rejects with a SyntaxError (for example "\x7b"), and
    `Slot.empty` is the empty string, which is falsy in JS;
  - a thrown JS exception is `Except.error`;
  - React's two `useEffect`s are made explicit: the load effect is
    `loadTemplates`, the persist effect is `persistTemplates`, and
    `mount` runs them in the order React runs them on first mount.
-/

namespace DiagramCraft

/-- Substring occurrence test on character lists: true iff `pat` occurs
contiguously somewhere in the second list (also at the very end). -/
def listContainsSub (pat : List Char) : List Char → Bool
  | [] => pat.isEmpty
  | c :: t => pat.isPrefixOf (c :: t) || listContainsSub pat t

/-- JS `s.includes(pat)`: case-sensitive, unanchored substring test. -/
def jsIncludes (s pat : String) : Bool :=
  listContainsSub pat.data s.data

/-- JS property lookup `m[k]` on an object modelled as an association
list: the value of the first entry whose key equals `k`. -/
def jsLookup (m : List (String × String)) (k : String) : Option String :=
  match m with
  | [] => none
  | p :: t => if p.1 = k then some p.2 else jsLookup t k

/-- JS object spread `\x7b...m, [k]: v\x7d`: if `k` is already a key its
value is replaced in place (key order preserved), otherwise the new
binding is appended at the end. -/
def jsInsert (m : List (String × String)) (k v : String) : List (String × String) :=
  if m.any (fun p => decide (p.1 = k)) then
    m.map (fun p => if p.1 = k then (k, v) else p)
  else
    m ++ [(k, v)]

/-- Source text of the default template "Rectangle with Circle"
(TikZExample.jsx lines 7-17). -/
def rectangleWithCircleSource : String :=
  "\n    \\documentclass\x7bstandalone\x7d\n    \\usepackage\x7btikz\x7d\n    \\begin\x7bdocument\x7d\n    \\begin\x7btikzpicture\x7d\n      \\draw[fill=blue!20] (0,0) rectangle (4,2);\n      \\draw[fill=red] (2,1) circle (0.5cm);\n      \\node at (2, 1) \x7bCircle\x7d;\n    \\end\x7btikzpicture\x7d\n    \\end\x7bdocument\x7d\n  "

/-- Source text of the default template "Bar Graph"
(TikZExample.jsx lines 18-29). -/
def barGraphSource : String :=
  "\n    \\documentclass\x7bstandalone\x7d\n    \\usepackage\x7btikz\x7d\n    \\begin\x7bdocument\x7d\n    \\begin\x7btikzpicture\x7d\n      \\draw[->] (0,0) -- (6,0) node[right] \x7bX\x7d;\n      \\draw[->] (0,0) -- (0,4) node[above] \x7bY\x7d;\n      \\foreach \\x/\\y in \x7b1/2, 2/3, 3/1.5, 4/3.5\x7d\n        \\draw[fill=blue!50] (\\x-0.2,0) bar (\\x+0.2,\\y);\n    \\end\x7btikzpicture\x7d\n    \\end\x7bdocument\x7d\n  "

/-- Source text of the default template "Organizational Chart"
(TikZExample.jsx lines 30-42). -/
def organizationalChartSource : String :=
  "\n    \\documentclass\x7bstandalone\x7d\n    \\usepackage\x7btikz\x7d\n    \\usetikzlibrary\x7bmindmap,trees\x7d\n    \\begin\x7bdocument\x7d\n    \\begin\x7btikzpicture\x7d\n      \\node[concept] \x7bCompany\x7d\n        child[concept] \x7bnode \x7bHR\x7d\x7d\n        child[concept] \x7bnode \x7bTech\x7d\x7d\n        child[concept] \x7bnode \x7bMarketing\x7d\x7d;\n    \\end\x7btikzpicture\x7d\n    \\end\x7bdocument\x7d\n  "

/-- `defaultTemplates` (TikZExample.jsx lines 6-43): the built-in
template set, as the association list of its three entries in source
order. -/
def defaultTemplates : List (String × String) :=
  [("Rectangle with Circle", rectangleWithCircleSource),
   ("Bar Graph", barGraphSource),
   ("Organizational Chart", organizationalChartSource)]

/-- The opening marker checked by the syntax checker. -/
def beginMarker : String := "\\begin\x7btikzpicture\x7d"

/-- The closing marker checked by the syntax checker. -/
def endMarker : String := "\\end\x7btikzpicture\x7d"

/-- Defect message pushed when the opening marker is absent. -/
def missingBeginMsg : String := "Missing \\begin\x7btikzpicture\x7d"

/-- Defect message pushed when the closing marker is absent. -/
def missingEndMsg : String := "Missing \\end\x7btikzpicture\x7d"

/-- `validateTikZSyntax` (TikZExample.jsx lines 69-78), the syntax
checker: pushes the missing-opening message when the opening marker is
absent, then the missing-closing message when the closing marker is
absent. -/
def validateTikZ (code : String) : List String :=
  (if jsIncludes code beginMarker then [] else [missingBeginMsg]) ++
  (if jsIncludes code endMarker then [] else [missingEndMsg])

/-- The fixed rectangle+circle SVG fragment (TikZExample.jsx lines
93-97). -/
def rectangleSVG : String :=
  "<svg xmlns=\"http://www.w3.org/2000/svg\" width=\"400\" height=\"200\">\n          <rect x=\"50\" y=\"50\" width=\"300\" height=\"100\" fill=\"lightblue\" />\n          <circle cx=\"200\" cy=\"100\" r=\"50\" fill=\"red\" />\n          <text x=\"200\" y=\"105\" font-size=\"20\" text-anchor=\"middle\" fill=\"black\">Circle</text>\n        </svg>"

/-- The fixed bar-graph SVG fragment (TikZExample.jsx lines 99-106). -/
def barGraphSVG : String :=
  "<svg xmlns=\"http://www.w3.org/2000/svg\" width=\"400\" height=\"200\">\n          <line x1=\"50\" y1=\"150\" x2=\"350\" y2=\"150\" stroke=\"black\" />\n          <line x1=\"50\" y1=\"150\" x2=\"50\" y2=\"50\" stroke=\"black\" />\n          <rect x=\"70\" y=\"100\" width=\"30\" height=\"50\" fill=\"blue\" />\n          <rect x=\"120\" y=\"80\" width=\"30\" height=\"70\" fill=\"blue\" />\n          <rect x=\"170\" y=\"110\" width=\"30\" height=\"40\" fill=\"blue\" />\n          <text x=\"200\" y=\"170\" font-size=\"12\" text-anchor=\"middle\">Bar Graph</text>\n        </svg>"

/-- The fixed org-chart SVG fragment (TikZExample.jsx lines 108-117). -/
def orgChartSVG : String :=
  "<svg xmlns=\"http://www.w3.org/2000/svg\" width=\"400\" height=\"200\">\n          <circle cx=\"200\" cy=\"100\" r=\"30\" fill=\"green\" />\n          <text x=\"200\" y=\"105\" font-size=\"12\" text-anchor=\"middle\" fill=\"white\">Company</text>\n          <line x1=\"200\" y1=\"100\" x2=\"150\" y2=\"50\" stroke=\"black\" />\n          <line x1=\"200\" y1=\"100\" x2=\"250\" y2=\"50\" stroke=\"black\" />\n          <line x1=\"200\" y1=\"100\" x2=\"200\" y2=\"150\" stroke=\"black\" />\n          <text x=\"150\" y=\"45\" font-size=\"10\" text-anchor=\"middle\">HR</text>\n          <text x=\"250\" y=\"45\" font-size=\"10\" text-anchor=\"middle\">Tech</text>\n          <text x=\"200\" y=\"165\" font-size=\"10\" text-anchor=\"middle\">Marketing</text>\n        </svg>"

/-- The keyword-driven synthesis cascade of `renderTikZ`
(TikZExample.jsx lines 92-120): first matching rule wins; the fallback
wraps the source in a pre element, unescaped. -/
def synthesize (tikzCode : String) : String :=
  if jsIncludes tikzCode "rectangle" then rectangleSVG
  else if jsIncludes tikzCode "bar" then barGraphSVG
  else if jsIncludes tikzCode "mindmap" then orgChartSVG
  else "<pre>" ++ tikzCode ++ "</pre>"

/-- The component's reactive state (TikZExample.jsx lines 46-49):
tikzCode, templates, renderedSVG (null = `none`), error (null =
`none`). -/
structure TikZEditorState where
  tikzCode : String
  templates : List (String × String)
  renderedSVG : Option String
  error : Option String
deriving DecidableEq

/-- The initial state set by the four `useState` calls. -/
def initialState : TikZEditorState :=
  { tikzCode := "", templates := [], renderedSVG := none, error := none }

/-- `renderTikZ` (TikZExample.jsx lines 80-121) as a state transformer:
validate; on defects store their ", "-join in `error` and clear the
preview; otherwise clear `error` and store the synthesized fragment. -/
def renderTikZ (st : TikZEditorState) : TikZEditorState :=
  let errors := validateTikZ st.tikzCode
  if errors.length > 0 then
    { st with error := some (String.intercalate ", " errors), renderedSVG := none }
  else
    { st with error := none, renderedSVG := some (synthesize st.tikzCode) }

/-- `handleTemplateChange` (TikZExample.jsx lines 127-131): set
`tikzCode` to the selected template's text, or "" when absent (JS
`templates[name] || ''`; a stored empty string is falsy and also
yields "", which coincides with `Option.getD ""`). -/
def handleTemplateChange (st : TikZEditorState) (name : String) : TikZEditorState :=
  { st with tikzCode := (jsLookup st.templates name).getD "" }

/-- `handleTemplateModification` (TikZExample.jsx lines 133-136):
object-spread update of the template map. -/
def handleTemplateModification (st : TikZEditorState) (name newCode : String) : TikZEditorState :=
  { st with templates := jsInsert st.templates name newCode }

/-- `handleCodeChange` (TikZExample.jsx lines 138-140): overwrite the
current source text. -/
def handleCodeChange (st : TikZEditorState) (text : String) : TikZEditorState :=
  { st with tikzCode := text }

/-- A value stored in the localStorage slot "tikzTemplates".
`JSON.stringify` / `JSON.parse` are host functions, modelled by their
contract: `ofJson m` is `JSON.stringify m` (a non-empty string that
parses back to exactly `m`); `notJson s` is a non-empty stored string
that `JSON.parse` rejects with a SyntaxError (for example "\x7b");
`empty` is the empty string, which is falsy in JS conditionals. -/
inductive Slot where
  | ofJson (m : List (String × String))
  | notJson (s : String)
  | empty
deriving DecidableEq

/-- JS truthiness of the stored string: only the empty string is
falsy. -/
def Slot.truthy : Slot → Bool
  | .empty => false
  | _ => true

/-- `JSON.parse` on a stored slot value, by the host contract: the
stringified map parses back to the map, anything malformed throws a
SyntaxError. -/
def jsonParse : Slot → Except String (List (String × String))
  | .ofJson m => .ok m
  | .notJson s => .error ("SyntaxError: Unexpected token in JSON: " ++ s)
  | .empty => .error "SyntaxError: Unexpected end of JSON input"

/-- The load-templates effect (TikZExample.jsx lines 52-59): read the
slot; a truthy stored string is fed to `JSON.parse` (whose exception,
if any, propagates — there is no try/catch); a missing or falsy value
selects the built-in defaults. Returns the mapping passed to
`setTemplates`. -/
def loadTemplates : Option Slot → Except String (List (String × String))
  | some s => if s.truthy then jsonParse s else .ok defaultTemplates
  | none => .ok defaultTemplates

/-- The persist-templates effect (TikZExample.jsx lines 62-66): when
the in-memory mapping is non-empty, overwrite the slot with its
stringification; otherwise leave the slot untouched. -/
def persistTemplates (templates : List (String × String)) (slot : Option Slot) : Option Slot :=
  if templates.length > 0 then some (Slot.ofJson templates) else slot

/-- First mount of the component: the load effect reads the slot and
sets `templates`; the persist effect then runs on the changed
`templates` (its initial run on the empty map is a no-op by
`persistTemplates`). A `JSON.parse` exception aborts the mount. -/
def mount (slot : Option Slot) : Except String (TikZEditorState × Option Slot) :=
  match loadTemplates slot with
  | .error e => .error e
  | .ok t => .ok ({ initialState with templates := t }, persistTemplates t slot)

/-- The user-reachable transitions of the editor controller. -/
inductive Op where
  | selectTemplate (name : String)
  | editSource (text : String)
  | render
  | saveTemplate (name text : String)

/-- One controller transition, paired with its effect on the persisted
slot: only `saveTemplate` changes `templates`, so only it re-fires the
persist effect. -/
def step (op : Op) (p : TikZEditorState × Option Slot) : TikZEditorState × Option Slot :=
  match op with
  | .selectTemplate name => (handleTemplateChange p.1 name, p.2)
  | .editSource text => (handleCodeChange p.1 text, p.2)
  | .render => (renderTikZ p.1, p.2)
  | .saveTemplate name text =>
      let st := handleTemplateModification p.1 name text
      (st, persistTemplates st.templates p.2)

/-- Run a sequence of transitions. -/
def run : List Op → TikZEditorState × Option Slot → TikZEditorState × Option Slot
  | [], p => p
  | op :: ops, p => run ops (step op p)

/-! ### Helper lemmas on the JS object operations -/

/-- Unfolding `jsInsert` one entry at a time: a matching head is
replaced (and the tail still rewritten, vacuously when keys are
unique); a non-matching head is kept and the insertion recurses. -/
theorem jsInsert_cons (p : String × String) (t : List (String × String)) (k v : String) :
    jsInsert (p :: t) k v =
      if p.1 = k then (k, v) :: t.map (fun q => if q.1 = k then (k, v) else q)
      else p :: jsInsert t k v := by
  by_cases hp : p.1 = k
  · simp [jsInsert, hp]
  · by_cases ht : t.any (fun q => decide (q.1 = k))
    · simp [jsInsert, hp, ht]
    · simp [jsInsert, hp, ht]

/-- Rewriting the entries whose key is `k` does not change lookup at a
different key. -/
theorem jsLookup_map_replace (t : List (String × String)) (k v k2 : String) (h : k2 ≠ k) :
    jsLookup (t.map (fun q => if q.1 = k then (k, v) else q)) k2 = jsLookup t k2 := by
  have hk2 : ¬ k = k2 := fun hx => h hx.symm
  induction t with
  | nil => rfl
  | cons q t ih =>
    by_cases hq : q.1 = k
    · have hq2 : ¬ q.1 = k2 := by
        intro hx
        exact h (hx ▸ hq ▸ rfl)
      simp [jsLookup, hq, hq2, hk2, h, ih]
    · by_cases hq2 : q.1 = k2
      · simp [jsLookup, hq, hq2, hk2, h]
      · simp [jsLookup, hq, hq2, ih]

/-- After `jsInsert m k v`, looking up `k` yields `v`. -/
theorem jsLookup_jsInsert_self (m : List (String × String)) (k v : String) :
    jsLookup (jsInsert m k v) k = some v := by
  induction m with
  | nil => simp [jsInsert, jsLookup]
  | cons p t ih =>
    rw [jsInsert_cons]
    by_cases hp : p.1 = k
    · simp [jsLookup, hp]
    · simp [jsLookup, hp, ih]

/-- After `jsInsert m k v`, looking up any other key is unchanged. -/
theorem jsLookup_jsInsert_other (m : List (String × String)) (k v k2 : String) (h : k2 ≠ k) :
    jsLookup (jsInsert m k v) k2 = jsLookup m k2 := by
  have hk2 : ¬ k = k2 := fun hx => h hx.symm
  induction m with
  | nil => simp [jsInsert, jsLookup, hk2]
  | cons p t ih =>
    rw [jsInsert_cons]
    by_cases hp : p.1 = k
    · have hp2 : ¬ p.1 = k2 := by
        intro hx
        exact h (hx ▸ hp ▸ rfl)
      simp [jsLookup, hp, hp2, hk2, h, jsLookup_map_replace t k v k2 h]
    · by_cases hp2 : p.1 = k2
      · simp [jsLookup, hp, hp2, hk2, h]
      · simp [jsLookup, hp, hp2, ih]

/-- `jsInsert` never returns the empty object. -/
theorem jsInsert_ne_nil (m : List (String × String)) (k v : String) :
    jsInsert m k v ≠ [] := by
  cases m with
  | nil => simp [jsInsert]
  | cons p t =>
    rw [jsInsert_cons]
    by_cases hp : p.1 = k <;> simp [hp]

/-- The persist effect on a freshly inserted-into mapping always
writes: the mapping is non-empty. -/
theorem persist_jsInsert (m : List (String × String)) (k v : String) (slot : Option Slot) :
    persistTemplates (jsInsert m k v) slot = some (Slot.ofJson (jsInsert m k v)) := by
  have h : 0 < (jsInsert m k v).length := List.length_pos.mpr (jsInsert_ne_nil m k v)
  simp [persistTemplates, h]

/-! ### Claim theorems -/

/-- C1 counterexample: with a stored value that is present but not
parseable as JSON (the single character "\x7b"), the load effect does
NOT return the built-in defaults — the `JSON.parse` exception
propagates, because the source has no try/catch around it. This
refutes the claim that a malformed snapshot "also returns exactly
those three built-in defaults and never fails or throws". -/
theorem loadTemplates_malformed_throws :
    loadTemplates (some (Slot.notJson "\x7b")) =
      Except.error "SyntaxError: Unexpected token in JSON: \x7b" ∧
    loadTemplates (some (Slot.notJson "\x7b")) ≠ Except.ok defaultTemplates := by
  constructor
  · rfl
  · intro h
    exact Except.noConfusion h

/-- C1 amended: when the persisted snapshot is absent — or stored as
the empty string, which is falsy in JS — the load effect returns the
built-in default set, whose keys are exactly the three template names;
but when the snapshot is present, non-empty and malformed, the
`JSON.parse` exception propagates (load fails); a well-formed snapshot
is returned as parsed. -/
theorem loadTemplates_spec :
    loadTemplates none = Except.ok defaultTemplates ∧
    loadTemplates (some Slot.empty) = Except.ok defaultTemplates ∧
    defaultTemplates.map Prod.fst =
      ["Rectangle with Circle", "Bar Graph", "Organizational Chart"] ∧
    (∀ s, loadTemplates (some (Slot.notJson s)) =
      Except.error ("SyntaxError: Unexpected token in JSON: " ++ s)) ∧
    (∀ m, loadTemplates (some (Slot.ofJson m)) = Except.ok m) :=
  ⟨rfl, rfl, rfl, fun _ => rfl, fun _ => rfl⟩

/-- C2: the synthesis cascade applies case-sensitive, unanchored
substring matches in fixed priority order — "rectangle" first (even if
"bar" or "mindmap" also occur), then "bar", then "mindmap", and
otherwise echoes the source wrapped in an unescaped pre element. -/
theorem synthesize_priority (s : String) :
    (jsIncludes s "rectangle" = true → synthesize s = rectangleSVG) ∧
    (jsIncludes s "rectangle" = false → jsIncludes s "bar" = true →
      synthesize s = barGraphSVG) ∧
    (jsIncludes s "rectangle" = false → jsIncludes s "bar" = false →
      jsIncludes s "mindmap" = true → synthesize s = orgChartSVG) ∧
    (jsIncludes s "rectangle" = false → jsIncludes s "bar" = false →
      jsIncludes s "mindmap" = false → synthesize s = "<pre>" ++ s ++ "</pre>") := by
  refine ⟨?_, ?_, ?_, ?_⟩
  · intro h1
    simp [synthesize, h1]
  · intro h1 h2
    simp [synthesize, h1, h2]
  · intro h1 h2 h3
    simp [synthesize, h1, h2, h3]
  · intro h1 h2 h3
    simp [synthesize, h1, h2, h3]

/-- C2 witness: one concrete input per priority rule, including a
source containing all three keywords for which rule 1 wins. -/
theorem synthesize_priority_witness :
    synthesize "rectangle bar mindmap" = rectangleSVG ∧
    synthesize "bar mindmap" = barGraphSVG ∧
    synthesize "a mindmap" = orgChartSVG ∧
    synthesize "plain" = "<pre>" ++ "plain" ++ "</pre>" :=
  ⟨(synthesize_priority "rectangle bar mindmap").1 (by decide),
   (synthesize_priority "bar mindmap").2.1 (by decide) (by decide),
   (synthesize_priority "a mindmap").2.2.1 (by decide) (by decide) (by decide),
   (synthesize_priority "plain").2.2.2 (by decide) (by decide) (by decide)⟩

/-- C3: the syntax checker is total on all strings (it is a Lean
function, hence never throws), returns at most two messages, returns
the empty list exactly when both markers occur, and returns exactly
the missing-opening message when only the opening marker is absent. -/
theorem validateTikZ_spec (s : String) :
    (validateTikZ s).length ≤ 2 ∧
    (validateTikZ s = [] ↔
      (jsIncludes s beginMarker = true ∧ jsIncludes s endMarker = true)) ∧
    (jsIncludes s beginMarker = false → jsIncludes s endMarker = true →
      validateTikZ s = [missingBeginMsg]) := by
  unfold validateTikZ
  cases hb : jsIncludes s beginMarker <;> cases he : jsIncludes s endMarker <;> simp

/-- C3 witness: a source holding only the closing marker misses
exactly the opening marker. -/
theorem validateTikZ_spec_witness :
    validateTikZ "\\end\x7btikzpicture\x7d" = [missingBeginMsg] :=
  (validateTikZ_spec "\\end\x7btikzpicture\x7d").2.2 (by decide) (by decide)

/-- C4: render computes the checker's result on the current source; on
defects it clears the preview and surfaces the defect messages (their
", "-join) without a preview, and on success it stores the synthesized
preview and clears the error; in particular rendering the empty source
surfaces both missing-marker defects and no preview. -/
theorem renderTikZ_spec (st : TikZEditorState) :
    (validateTikZ st.tikzCode ≠ [] →
      (renderTikZ st).renderedSVG = none ∧
      (renderTikZ st).error =
        some (String.intercalate ", " (validateTikZ st.tikzCode))) ∧
    (validateTikZ st.tikzCode = [] →
      (renderTikZ st).renderedSVG = some (synthesize st.tikzCode) ∧
      (renderTikZ st).error = none) ∧
    ((renderTikZ { st with tikzCode := "" }).error =
        some (missingBeginMsg ++ ", " ++ missingEndMsg) ∧
      (renderTikZ { st with tikzCode := "" }).renderedSVG = none) := by
  refine ⟨?_, ?_, ?_, ?_⟩
  · intro h
    have hp : 0 < (validateTikZ st.tikzCode).length := List.length_pos.mpr h
    simp [renderTikZ, hp]
  · intro h
    simp [renderTikZ, h]
  · rfl
  · rfl

/-- C4 witness: a defective source yields no preview; a well-formed
rectangle source yields the synthesized preview. -/
theorem renderTikZ_spec_witness :
    (renderTikZ { initialState with tikzCode := "bad" }).renderedSVG = none ∧
    (renderTikZ { initialState with
        tikzCode := "\\begin\x7btikzpicture\x7d rectangle \\end\x7btikzpicture\x7d" }).renderedSVG =
      some (synthesize "\\begin\x7btikzpicture\x7d rectangle \\end\x7btikzpicture\x7d") :=
  ⟨((renderTikZ_spec { initialState with tikzCode := "bad" }).1 (by decide)).1,
   ((renderTikZ_spec { initialState with
      tikzCode := "\\begin\x7btikzpicture\x7d rectangle \\end\x7btikzpicture\x7d" }).2.1
      (by decide)).1⟩

/-- C5 counterexample: mounting with an absent persisted snapshot and
performing no user action at all already overwrites the slot — the
persist effect fires on the seeded defaults and writes their
stringification back, so the snapshot does not stay `none`. This
refutes the claim that the defaults are never written back
automatically at load time. -/
theorem mount_writes_defaults_back :
    mount none =
      Except.ok ({ initialState with templates := defaultTemplates },
        some (Slot.ofJson defaultTemplates)) ∧
    (some (Slot.ofJson defaultTemplates) : Option Slot) ≠ none := by
  constructor
  · rfl
  · intro h
    exact Option.noConfusion h

/-- C5 amended: at load time the persist effect automatically writes
the freshly loaded mapping back to the slot whenever that mapping is
non-empty — in particular an absent snapshot is immediately replaced
by the stringified built-in defaults, with no explicit save; only an
empty loaded mapping leaves the slot unchanged. -/
theorem mount_persists_loaded (slot : Option Slot) (t : List (String × String))
    (h : loadTemplates slot = Except.ok t) :
    mount slot = Except.ok ({ initialState with templates := t },
      if t.length > 0 then some (Slot.ofJson t) else slot) := by
  simp [mount, h, persistTemplates]

/-- C5 amended witness: mounting on an absent snapshot persists the
defaults. -/
theorem mount_persists_loaded_witness :
    mount none = Except.ok ({ initialState with templates := defaultTemplates },
      if defaultTemplates.length > 0 then some (Slot.ofJson defaultTemplates)
      else none) :=
  mount_persists_loaded none defaultTemplates rfl

/-- The inductive invariant of the editor state: a surfaced error
forces an absent preview, and any present preview was synthesized from
some source that passed the checker. -/
def StateInv (st : TikZEditorState) : Prop :=
  (st.error ≠ none → st.renderedSVG = none) ∧
  (∀ v, st.renderedSVG = some v → ∃ s, validateTikZ s = [] ∧ v = synthesize s)

/-- Every controller transition preserves the editor invariant. -/
theorem stateInv_step (op : Op) (p : TikZEditorState × Option Slot)
    (h : StateInv p.1) : StateInv (step op p).1 := by
  cases op with
  | selectTemplate name =>
    exact ⟨fun he => h.1 he, fun v hv => h.2 v hv⟩
  | editSource text =>
    exact ⟨fun he => h.1 he, fun v hv => h.2 v hv⟩
  | saveTemplate name text =>
    exact ⟨fun he => h.1 he, fun v hv => h.2 v hv⟩
  | render =>
    show StateInv (renderTikZ p.1)
    unfold renderTikZ
    by_cases hv : 0 < (validateTikZ p.1.tikzCode).length
    · simp only [hv, if_pos, gt_iff_lt]
      exact ⟨fun _ => rfl, fun v hx => Option.noConfusion hx⟩
    · simp only [hv, if_neg, gt_iff_lt, if_false]
      refine ⟨fun he => absurd rfl he, fun v hx => ?_⟩
      refine ⟨p.1.tikzCode, ?_, ?_⟩
      · exact List.length_eq_zero.mp (Nat.eq_zero_of_not_pos hv)
      · exact (Option.some.injEq _ _ ▸ hx).symm

/-- C6: from the initial state, after any sequence of the four
operations, a non-empty surfaced defect forces an absent preview; and
any present preview is the synthesizer's output on some source that
passed the checker — it is never hand-set. -/
theorem editor_invariant (ops : List Op) (slot : Option Slot) :
    ((run ops (initialState, slot)).1.error ≠ none →
      (run ops (initialState, slot)).1.renderedSVG = none) ∧
    (∀ v, (run ops (initialState, slot)).1.renderedSVG = some v →
      ∃ s, validateTikZ s = [] ∧ v = synthesize s) := by
  have hinit : StateInv initialState :=
    ⟨fun he => absurd rfl he, fun v hv => Option.noConfusion hv⟩
  have hrun : ∀ (l : List Op) (p : TikZEditorState × Option Slot),
      StateInv p.1 → StateInv (run l p).1 := by
    intro l
    induction l with
    | nil => exact fun p hp => hp
    | cons op ops ih => exact fun p hp => ih _ (stateInv_step op p hp)
  exact hrun ops (initialState, slot) hinit

/-- C6 witness: rendering a defective source leaves no preview, and
the preview produced by rendering a valid rectangle source is the
synthesizer's output on a checker-passing source. -/
theorem editor_invariant_witness :
    (run [Op.editSource "x", Op.render] (initialState, none)).1.renderedSVG = none ∧
    (∃ s, validateTikZ s = [] ∧ rectangleSVG = synthesize s) :=
  ⟨(editor_invariant [Op.editSource "x", Op.render] none).1 (by decide),
   (editor_invariant
      [Op.editSource "\\begin\x7btikzpicture\x7d rectangle \\end\x7btikzpicture\x7d",
        Op.render] none).2 rectangleSVG (by decide)⟩

/-- C7: saving a template (object-spread put, then the persist effect
on the changed mapping) followed by a fresh load yields a mapping that
binds the saved name to the saved text and leaves every other binding
unchanged. -/
theorem saveTemplate_roundtrip (st : TikZEditorState) (slot : Option Slot)
    (name text k : String) (hk : k ≠ name) :
    ∃ m, loadTemplates (step (Op.saveTemplate name text) (st, slot)).2 =
        Except.ok m ∧
      jsLookup m name = some text ∧
      jsLookup m k = jsLookup st.templates k := by
  refine ⟨jsInsert st.templates name text, ?_, ?_, ?_⟩
  · show loadTemplates (persistTemplates (jsInsert st.templates name text) slot) = _
    rw [persist_jsInsert]
    rfl
  · exact jsLookup_jsInsert_self st.templates name text
  · exact jsLookup_jsInsert_other st.templates name text k hk

/-- C7 witness: saving "X" with text "text" from the initial state and
reloading binds "X" and leaves "other" unbound as before. -/
theorem saveTemplate_roundtrip_witness :
    ∃ m, loadTemplates (step (Op.saveTemplate "X" "text") (initialState, none)).2 =
        Except.ok m ∧
      jsLookup m "X" = some "text" ∧
      jsLookup m "other" = jsLookup initialState.templates "other" :=
  saveTemplate_roundtrip initialState none "X" "text" "other" (by decide)

/-- C8: selecting each built-in default template and rendering yields
no error and the corresponding fixed fragment; each default source
passes the checker and contains its triggering keyword but no
higher-priority keyword. -/
theorem defaults_render_fragments :
    (renderTikZ (handleTemplateChange
        { initialState with templates := defaultTemplates }
        "Rectangle with Circle")).error = none ∧
    (renderTikZ (handleTemplateChange
        { initialState with templates := defaultTemplates }
        "Rectangle with Circle")).renderedSVG = some rectangleSVG ∧
    (renderTikZ (handleTemplateChange
        { initialState with templates := defaultTemplates }
        "Bar Graph")).error = none ∧
    (renderTikZ (handleTemplateChange
        { initialState with templates := defaultTemplates }
        "Bar Graph")).renderedSVG = some barGraphSVG ∧
    (renderTikZ (handleTemplateChange
        { initialState with templates := defaultTemplates }
        "Organizational Chart")).error = none ∧
    (renderTikZ (handleTemplateChange
        { initialState with templates := defaultTemplates }
        "Organizational Chart")).renderedSVG = some orgChartSVG ∧
    validateTikZ rectangleWithCircleSource = [] ∧
    validateTikZ barGraphSource = [] ∧
    validateTikZ organizationalChartSource = [] ∧
    jsIncludes barGraphSource "rectangle" = false ∧
    jsIncludes organizationalChartSource "rectangle" = false ∧
    jsIncludes organizationalChartSource "bar" = false := by
  decide

/-- C9: the persist effect is a conditional write — it overwrites the
slot with the stringified mapping exactly when the mapping is
non-empty, and leaves the slot untouched when the mapping is empty. -/
theorem persistTemplates_conditional (m : List (String × String)) (slot : Option Slot) :
    (m ≠ [] → persistTemplates m slot = some (Slot.ofJson m)) ∧
    (m = [] → persistTemplates m slot = slot) := by
  constructor
  · intro h
    simp [persistTemplates, List.length_pos.mpr h]
  · intro h
    subst h
    simp [persistTemplates]

/-- C9 witness: a one-entry mapping is written; the empty mapping
leaves a pre-existing slot value untouched. -/
theorem persistTemplates_conditional_witness :
    persistTemplates [("a", "b")] none = some (Slot.ofJson [("a", "b")]) ∧
    persistTemplates [] (some Slot.empty) = some Slot.empty :=
  ⟨(persistTemplates_conditional [("a", "b")] none).1 (by decide),
   (persistTemplates_conditional [] (some Slot.empty)).2 rfl⟩

/-- C10: when the checker reports defects, render stores the surfaced
report as one single string — the messages joined in rule order with
", " — and on the empty source that string is exactly the two
missing-marker messages joined. -/
theorem renderTikZ_error_joined (st : TikZEditorState)
    (h : validateTikZ st.tikzCode ≠ []) :
    (renderTikZ st).error =
      some (String.intercalate ", " (validateTikZ st.tikzCode)) ∧
    (renderTikZ { st with tikzCode := "" }).error =
      some "Missing \\begin\x7btikzpicture\x7d, Missing \\end\x7btikzpicture\x7d" := by
  constructor
  · have hp : 0 < (validateTikZ st.tikzCode).length := List.length_pos.mpr h
    simp [renderTikZ, hp]
  · rfl

/-- C10 witness: a source with neither marker gets the joined
two-message report. -/
theorem renderTikZ_error_joined_witness :
    (renderTikZ { initialState with tikzCode := "rectangle only" }).error =
      some (String.intercalate ", " (validateTikZ "rectangle only")) :=
  (renderTikZ_error_joined { initialState with tikzCode := "rectangle only" }
    (by decide)).1

end DiagramCraft
